import Mathlib

/-!
Verification development for the task-tracking backend (Express + Mongoose).
Shallow embedding of the source under src/: the Mongoose models and their
middleware, the visibility checks of the auth middleware and controllers, the
mutation controllers, the JWT handling, the socket fanout, and the route
wiring. Dates are modelled as Nat (milliseconds since the epoch), ObjectIds as
Nat, and the persistence collaborator as an explicit list of documents.
-/

namespace TrelloBackend

/-- Role enum of the User model (src/models/User.js): "admin", "vendor",
"customer". -/
inductive Role
  | admin
  | vendor
  | customer
deriving DecidableEq

/-- Status enum of the Task model (src/models/Task.js): "todo", "inprogress",
"done". -/
inductive Status
  | todo
  | inprogress
  | done
deriving DecidableEq

/-- Priority enum of the Task model (src/models/Task.js): "low", "medium",
"high". -/
inductive Priority
  | low
  | medium
  | high
deriving DecidableEq

/-- User document (src/models/User.js). `uid` is the Mongo `_id`; the password
hash, avatar and timestamps play no part in the claims and are elided. -/
structure UserDoc where
  uid : Nat
  name : String
  email : String
  role : Role
  isActive : Bool
deriving DecidableEq

/-- Subtask subdocument (src/models/Task.js). -/
structure Subtask where
  sid : Nat
  text : String
  completed : Bool
  createdAt : Nat
deriving DecidableEq

/-- Comment subdocument (src/models/Task.js). -/
structure TaskComment where
  text : String
  author : String
  authorId : Nat
  authorRole : Role
  createdAt : Nat
deriving DecidableEq

/-- Task document (src/models/Task.js). `tid` is the Mongo `_id`; the
attachments array plays no part in the claims and is elided. -/
structure Task where
  tid : Nat
  title : String
  description : String
  priority : Priority
  status : Status
  assignee : String
  assigneeId : Nat
  createdBy : Nat
  dueDate : Nat
  tags : List String
  subtasks : List Subtask
  timeSpent : Nat
  comments : List TaskComment
  isArchived : Bool
  completedAt : Option Nat
  createdAt : Nat
  updatedAt : Nat
deriving DecidableEq

/-! ## Task state machine: the pre("save") middleware -/

/-- The taskSchema.pre("save") middleware (src/models/Task.js lines 290-308):
it refreshes updatedAt, sets completedAt when a modified status is "done" and
completedAt was unset, and clears completedAt when a modified status is not
"done" and completedAt was set. The source runs the two ifs in sequence on the
same document; they are mutually exclusive (the guards test status being
"done" and not being "done"), so the sequencing flattens to this three-way
branch. `statusModified` models the Mongoose call this.isModified("status"). -/
def taskPreSave (statusModified : Bool) (now : Nat) (t : Task) : Task :=
  if statusModified = true ∧ t.status = Status.done ∧ t.completedAt = none then
    { t with updatedAt := now, completedAt := some now }
  else if statusModified = true ∧ t.status ≠ Status.done ∧ t.completedAt ≠ none then
    { t with updatedAt := now, completedAt := none }
  else { t with updatedAt := now }

/-- Assigning status `s` to a loaded document and calling save(): Mongoose
marks the "status" path modified only when the assigned value differs from the
stored one, then the pre("save") middleware runs. -/
def applyStatus (t : Task) (s : Status) (now : Nat) : Task :=
  taskPreSave (decide (t.status ≠ s)) now { t with status := s }

/-- Shape of the value of the subtaskProgress virtual. -/
structure Progress where
  completed : Nat
  total : Nat
  percentage : Nat
deriving DecidableEq

/-- Math.round(completed / total * 100) on nonnegative operands: half-up
rounding of the exact ratio, as an integer computation. -/
def jsRound100 (c t : Nat) : Nat := (200 * c + t) / (2 * t)

/-- The subtaskProgress virtual (src/models/Task.js lines 267-276): a derived
projection computed from the subtasks array; a virtual getter, so it writes
nothing back to the document. -/
def subtaskProgress (t : Task) : Progress :=
  if t.subtasks.length = 0 then { completed := 0, total := 0, percentage := 0 }
  else
    { completed := (t.subtasks.filter (fun s => s.completed)).length,
      total := t.subtasks.length,
      percentage := jsRound100 (t.subtasks.filter (fun s => s.completed)).length t.subtasks.length }

/-! ## Errors returned by the controllers -/

/-- Error kinds of the controller layer, by HTTP status: notFound 404,
forbidden 403, invalidReference the 400 "Assignee not found" response, and
unauthorized the 401 responses with their message text. -/
inductive ApiErr
  | notFound
  | forbidden
  | invalidReference
  | unauthorized (msg : String)
deriving DecidableEq

deriving instance DecidableEq for Except

/-- Whether an Except carries a success value. -/
def exceptOk {e a : Type} : Except e a → Bool
  | Except.ok _ => true
  | Except.error _ => false

/-! ## Visibility: list scope and single-task read -/

/-- Role clause of the list query built by getTasks
(src/controllers/taskController.js lines 284-293): isArchived false always,
customers restricted to tasks assigned to them, vendors to tasks assigned to
or created by them, admins unrestricted. (The optional status, priority, tags
and search filters stack on top of this base predicate and are not part of
it.) -/
def scopeFilter (u : UserDoc) (t : Task) : Bool :=
  !t.isArchived &&
    (match u.role with
     | Role.customer => decide (t.assigneeId = u.uid)
     | Role.vendor => decide (t.assigneeId = u.uid) || decide (t.createdBy = u.uid)
     | Role.admin => true)

/-- Access check of the getTask controller (src/controllers/taskController.js
lines 356-377): customers must be the assignee, vendors the assignee or the
creator, admins pass; no isArchived test appears in this handler. -/
def canReadTask (u : UserDoc) (t : Task) : Bool :=
  match u.role with
  | Role.customer => decide (t.assigneeId = u.uid)
  | Role.vendor => decide (t.assigneeId = u.uid) || decide (t.createdBy = u.uid)
  | Role.admin => true

/-- getTask controller: 404 when the task is missing, 403 when the access
check fails, otherwise the task. -/
def getTask (u : UserDoc) (t? : Option Task) : Except ApiErr Task :=
  match t? with
  | none => Except.error ApiErr.notFound
  | some t => if canReadTask u t then Except.ok t else Except.error ApiErr.forbidden

/-- checkTaskAccess middleware (src/middleware/auth.js lines 74-119): admins
pass without loading the task; otherwise the task is loaded (404 when
missing), vendors pass when creator or assignee, customers when assignee, and
everything else is 403. -/
def checkTaskAccess (u : UserDoc) (t? : Option Task) : Except ApiErr Unit :=
  if u.role = Role.admin then Except.ok ()
  else
    match t? with
    | none => Except.error ApiErr.notFound
    | some t =>
      if u.role = Role.vendor ∧ (t.createdBy = u.uid ∨ t.assigneeId = u.uid) then Except.ok ()
      else if u.role = Role.customer ∧ t.assigneeId = u.uid then Except.ok ()
      else Except.error ApiErr.forbidden

/-! ## Update pipeline -/

/-- Update body accepted by the update route (fields of updateTaskValidation
in src/routes/taskRoutes.js plus the assignee name the controller fills in);
a field set to none is absent from the request body. -/
structure TaskPatch where
  title : Option String
  description : Option String
  priority : Option Priority
  status : Option Status
  assigneeId : Option Nat
  assignee : Option String
  dueDate : Option Nat
  tags : Option (List String)
  timeSpent : Option Nat
deriving DecidableEq

/-- The empty request body. -/
def emptyPatch : TaskPatch :=
  { title := none, description := none, priority := none, status := none,
    assigneeId := none, assignee := none, dueDate := none, tags := none,
    timeSpent := none }

/-- Task.findByIdAndUpdate(id, body, { new: true, runValidators: true }) as
the update controller calls it: every field present in the body replaces the
stored one. This is a Mongoose query-level update: the pre("save") document
middleware does not run, so completedAt is left exactly as stored; the
timestamps option refreshes updatedAt. -/
def findByIdAndUpdate (t : Task) (p : TaskPatch) (now : Nat) : Task :=
  { t with
    title := p.title.getD t.title,
    description := p.description.getD t.description,
    priority := p.priority.getD t.priority,
    status := p.status.getD t.status,
    assigneeId := p.assigneeId.getD t.assigneeId,
    assignee := p.assignee.getD t.assignee,
    dueDate := p.dueDate.getD t.dueDate,
    tags := p.tags.getD t.tags,
    timeSpent := p.timeSpent.getD t.timeSpent,
    updatedAt := now }

/-- User.findById against the user store. -/
def findUserById (users : List UserDoc) (i : Nat) : Option UserDoc :=
  users.find? (fun u => u.uid == i)

/-- updateTask controller (src/controllers/taskController.js lines 437-487):
404 when the task is missing; when the body carries assigneeId the new
assignee must resolve (else the 400 "Assignee not found" response) and its
name is copied into the body; then the whole body is applied through
Task.findByIdAndUpdate. No field-level restriction by role appears here. -/
def updateTask (users : List UserDoc) (t? : Option Task) (p : TaskPatch) (now : Nat) :
    Except ApiErr Task :=
  match t? with
  | none => Except.error ApiErr.notFound
  | some t =>
    match p.assigneeId with
    | some aid =>
      match findUserById users aid with
      | none => Except.error ApiErr.invalidReference
      | some a => Except.ok (findByIdAndUpdate t { p with assignee := some a.name } now)
    | none => Except.ok (findByIdAndUpdate t p now)

/-- The PUT /api/tasks/:id pipeline (src/routes/taskRoutes.js line 129):
checkTaskAccess, then the updateTask controller. -/
def putTaskRoute (actor : UserDoc) (users : List UserDoc) (t? : Option Task)
    (p : TaskPatch) (now : Nat) : Except ApiErr Task :=
  match checkTaskAccess actor t? with
  | Except.error e => Except.error e
  | Except.ok _ => updateTask users t? p now

/-- addComment controller (src/controllers/taskController.js lines 600-647):
404 when the task is missing, else the comment is pushed and the task saved;
the save runs the pre("save") middleware with the status path unmodified. -/
def addComment (u : UserDoc) (t? : Option Task) (text : String) (now : Nat) :
    Except ApiErr (Task × TaskComment) :=
  match t? with
  | none => Except.error ApiErr.notFound
  | some t =>
    let c : TaskComment :=
      { text := text, author := u.name, authorId := u.uid, authorRole := u.role,
        createdAt := now }
    Except.ok (taskPreSave false now { t with comments := t.comments ++ [c] }, c)

/-- The POST /api/tasks/:id/comments pipeline (src/routes/taskRoutes.js line
142): checkTaskAccess, then the addComment controller. -/
def postCommentRoute (u : UserDoc) (t? : Option Task) (text : String) (now : Nat) :
    Except ApiErr (Task × TaskComment) :=
  match checkTaskAccess u t? with
  | Except.error e => Except.error e
  | Except.ok _ => addComment u t? text now

/-! ## Bulk update -/

/-- Query built by bulkUpdateTasks (src/controllers/taskController.js lines
543-548): _id among taskIds, and for a vendor additionally the $or ownership
clause (assigneeId or createdBy equals the actor). -/
def bulkQueryMatch (actor : UserDoc) (taskIds : List Nat) (t : Task) : Bool :=
  decide (t.tid ∈ taskIds) &&
    (if actor.role = Role.vendor then
      decide (t.assigneeId = actor.uid ∨ t.createdBy = actor.uid)
     else true)

/-- Task.updateMany(query, updates): the update document is applied to every
matching task (a query-level update, no pre("save") middleware), and
modifiedCount counts the matched documents the update actually changed. -/
def updateMany (q : Task → Bool) (p : TaskPatch) (now : Nat) (store : List Task) :
    List Task × Nat :=
  (store.map (fun t => if q t = true then findByIdAndUpdate t p now else t),
   (store.filter (fun t => q t && decide (findByIdAndUpdate t p now ≠ t))).length)

/-- bulkUpdateTasks controller (src/controllers/taskController.js lines
518-568): when updates carry assigneeId the new assignee must resolve and its
name is copied in; then updateMany runs with the role-scoped query and the
response reports result.modifiedCount. -/
def bulkUpdateTasks (actor : UserDoc) (users : List UserDoc) (store : List Task)
    (taskIds : List Nat) (updates : TaskPatch) (now : Nat) :
    Except ApiErr (List Task × Nat) :=
  match updates.assigneeId with
  | some aid =>
    match findUserById users aid with
    | none => Except.error ApiErr.invalidReference
    | some a =>
      Except.ok (updateMany (bulkQueryMatch actor taskIds) { updates with assignee := some a.name } now store)
  | none => Except.ok (updateMany (bulkQueryMatch actor taskIds) updates now store)

/-! ## JWT payloads and the three credential checks -/

/-- Decoded JWT payload: the two payload keys the codebase writes. A key the
signer did not put in the token decodes to none (undefined). -/
structure JwtPayload where
  id : Option Nat
  userId : Option Nat
deriving DecidableEq

/-- generateToken (src/middleware/auth.js lines 122-126), used by register:
jwt.sign({ id }) — payload key "id". -/
def generateToken (uid : Nat) : JwtPayload := { id := some uid, userId := none }

/-- The token the login controller signs (src/controllers/authController.js
line 98): jwt.sign({ userId }) — payload key "userId". -/
def loginTokenPayload (uid : Nat) : JwtPayload := { id := none, userId := some uid }

/-- User.findById applied to a possibly-undefined decoded key: Mongoose treats
findById(undefined) as a query for _id null, which resolves to no document. -/
def findUserByOptId (users : List UserDoc) (k : Option Nat) : Option UserDoc :=
  match k with
  | none => none
  | some i => findUserById users i

/-- protect middleware (src/middleware/auth.js lines 5-58): requires a bearer
token, reads decoded.userId, loads the user, and rejects a missing or inactive
user; every failure is a 401 response. `tok = none` covers both a missing
token and one jwt.verify rejects. -/
def protect (users : List UserDoc) (tok : Option JwtPayload) : Except ApiErr UserDoc :=
  match tok with
  | none => Except.error (ApiErr.unauthorized "Not authorized to access this route")
  | some p =>
    match findUserByOptId users p.userId with
    | none => Except.error (ApiErr.unauthorized "No user found with this token")
    | some u =>
      if u.isActive = false then
        Except.error (ApiErr.unauthorized "User account is deactivated")
      else Except.ok u

/-- authenticateSocket (src/socket/socketHandlers.js lines 5-25): reads
decoded.id, and rejects with one Error both a missing and an inactive user. -/
def authenticateSocket (users : List UserDoc) (tok : Option JwtPayload) :
    Except String UserDoc :=
  match tok with
  | none => Except.error "Authentication error: No token provided"
  | some p =>
    match findUserByOptId users p.id with
    | none => Except.error "Authentication error: Invalid user"
    | some u =>
      if u.isActive = false then Except.error "Authentication error: Invalid user"
      else Except.ok u

/-- User.findByEmail via findOne on the email field. -/
def findUserByEmail (users : List UserDoc) (email : String) : Option UserDoc :=
  users.find? (fun u => u.email == email)

/-- login controller (src/controllers/authController.js lines 54-106): user
lookup by email, the isActive gate, the password check, then a token with
payload key "userId". All three failures are 401 responses. -/
def login (users : List UserDoc) (email : String) (pwOk : UserDoc → Bool) :
    Except ApiErr JwtPayload :=
  match findUserByEmail users email with
  | none => Except.error (ApiErr.unauthorized "Invalid Email or Password")
  | some u =>
    if u.isActive = false then
      Except.error (ApiErr.unauthorized "Account is deactivated. Please contact administrator.")
    else if pwOk u = false then
      Except.error (ApiErr.unauthorized "Invalid Email or Password")
    else Except.ok (loginTokenPayload u.uid)

/-! ## Socket fanout -/

/-- A live socket connection: the authenticated user and the rooms joined
(socket.join uses names user_<id>, role_<role>, task_<taskId>). -/
structure Conn where
  cid : Nat
  user : UserDoc
  rooms : List String
deriving DecidableEq

/-- io.emit(event, data): delivered to every connected socket, regardless of
room membership. The REST controllers publish taskCreated, taskUpdated and
taskDeleted this way (src/controllers/taskController.js lines 422-425 and
477-480). -/
def ioEmitRecipients (conns : List Conn) : List Conn := conns

/-- socket.to(room).emit(event, data): delivered to the members of the room
other than the sender. -/
def socketToRecipients (conns : List Conn) (sender : Conn) (room : String) : List Conn :=
  conns.filter (fun c => decide (c ≠ sender) && decide (room ∈ c.rooms))

/-- The three emits of the client-relayed "taskUpdate" socket handler
(src/socket/socketHandlers.js lines 54-61): the task room, role_admin and
role_vendor, each excluding the sender. -/
def taskUpdateRelayRecipients (conns : List Conn) (sender : Conn) (taskId : Nat) :
    List Conn :=
  socketToRecipients conns sender ("task_" ++ toString taskId) ++
    socketToRecipients conns sender "role_admin" ++
      socketToRecipients conns sender "role_vendor"

/-- Recipients of a REST task created/updated/deleted event: req.io.emit is a
global broadcast. -/
def restTaskEventRecipients (conns : List Conn) : List Conn := ioEmitRecipients conns

/-! ## The user router (src/routes/userRoutes.js) -/

/-- A middleware step of a route chain. -/
inductive MwStep
  | protectStep
  | authorizeStep (roles : List Role)
  | validateStep
deriving DecidableEq

/-- GET /api/users chain: only the query validation. The router.use(protect)
line is commented out in src/routes/userRoutes.js line 15, so no user route
carries the protect middleware. -/
def userListChain : List MwStep := [MwStep.validateStep]

/-- GET /api/users/:id chain: no middleware at all. -/
def userDetailChain : List MwStep := []

/-- PUT /api/users/:id chain: authorize("admin") only — no protect before it. -/
def userUpdateChain : List MwStep := [MwStep.authorizeStep [Role.admin]]

/-- DELETE /api/users/:id chain: authorize("admin") only — no protect before
it. -/
def userDeleteChain : List MwStep := [MwStep.authorizeStep [Role.admin]]

/-- Outcome of running the middleware chain and handler of a route. authorizeCrash
is the authorize middleware reading req.user.role with no resolved user (a
TypeError surfaced as a server error, reaching no handler). -/
inductive RouteOutcome (a : Type)
  | served (v : a)
  | unauthorized
  | forbidden
  | authorizeCrash
deriving DecidableEq

/-- Express pipeline over a middleware chain: protect resolves req.user or
ends the request with 401; authorize reads req.user.role (crashing when no
earlier middleware resolved a user) and checks the role list; validation
passes through (well-formed query assumed); the handler runs when the chain is
exhausted. -/
def runChain {a : Type} (users : List UserDoc) (tok : Option JwtPayload)
    (handler : Option UserDoc → a) : List MwStep → Option UserDoc → RouteOutcome a
  | [], user? => RouteOutcome.served (handler user?)
  | MwStep.protectStep :: rest, _ =>
    match protect users tok with
    | Except.error _ => RouteOutcome.unauthorized
    | Except.ok u => runChain users tok handler rest (some u)
  | MwStep.authorizeStep roles :: rest, user? =>
    match user? with
    | none => RouteOutcome.authorizeCrash
    | some u =>
      if u.role ∈ roles then runChain users tok handler rest (some u)
      else RouteOutcome.forbidden
  | MwStep.validateStep :: rest, user? => runChain users tok handler rest user?

/-- Query parameters of GET /api/users. -/
structure UsersQuery where
  role : Option Role
  isActive : Option Bool
  page : Nat
  limit : Nat
deriving DecidableEq

/-- getUsers controller (src/controllers/userController.js lines 9-72): builds
a filter from the role and isActive query parameters (the search regex and
sort order are elided), applies skip/limit pagination, and returns the
matching users. The requester is never consulted. -/
def getUsers (users : List UserDoc) (q : UsersQuery) : List UserDoc :=
  ((users.filter (fun u =>
      (match q.role with
       | none => true
       | some r => decide (u.role = r)) &&
      (match q.isActive with
       | none => true
       | some b => u.isActive == b))).drop ((q.page - 1) * q.limit)).take q.limit

/-- getUser controller (src/controllers/userController.js lines 77-117): 404
when missing, else the user document (the task statistics aggregation attached
to the response is elided). The requester is never consulted. -/
def getUserById (users : List UserDoc) (i : Nat) : Except ApiErr UserDoc :=
  match findUserById users i with
  | none => Except.error ApiErr.notFound
  | some u => Except.ok u

/-! ## Concrete fixtures for counterexamples and witnesses -/

/-- An active admin. -/
def adminUser : UserDoc :=
  { uid := 1, name := "Admin", email := "admin@example.com", role := Role.admin,
    isActive := true }

/-- An active vendor. -/
def vendorUser : UserDoc :=
  { uid := 2, name := "Vendor", email := "vendor@example.com", role := Role.vendor,
    isActive := true }

/-- An active customer. -/
def customerUser : UserDoc :=
  { uid := 5, name := "Cust", email := "cust@example.com", role := Role.customer,
    isActive := true }

/-- Another active user, target of a reassignment. -/
def otherUser : UserDoc :=
  { uid := 9, name := "Other", email := "other@example.com", role := Role.vendor,
    isActive := true }

/-- A deactivated user. -/
def inactiveUser : UserDoc :=
  { uid := 7, name := "Gone", email := "gone@example.com", role := Role.vendor,
    isActive := false }

/-- A task in state todo with completedAt unset. -/
def taskTodo : Task :=
  { tid := 1, title := "Fix bug", description := "", priority := Priority.medium,
    status := Status.todo, assignee := "Cust", assigneeId := 5, createdBy := 2,
    dueDate := 500, tags := [], subtasks := [], timeSpent := 0, comments := [],
    isArchived := false, completedAt := none, createdAt := 10, updatedAt := 10 }

/-- A task assigned to customerUser. -/
def customerTask : Task :=
  { tid := 3, title := "Review order", description := "", priority := Priority.medium,
    status := Status.todo, assignee := "Cust", assigneeId := 5, createdBy := 2,
    dueDate := 500, tags := [], subtasks := [], timeSpent := 0, comments := [],
    isArchived := false, completedAt := none, createdAt := 10, updatedAt := 10 }

/-- An archived task. -/
def archivedTask : Task :=
  { tid := 4, title := "Old work", description := "", priority := Priority.low,
    status := Status.done, assignee := "Cust", assigneeId := 5, createdBy := 2,
    dueDate := 100, tags := [], subtasks := [], timeSpent := 0, comments := [],
    isArchived := true, completedAt := some 90, createdAt := 10, updatedAt := 90 }

/-- A task owned by vendorUser (created by them). -/
def ownedTask : Task :=
  { tid := 11, title := "Owned", description := "", priority := Priority.medium,
    status := Status.todo, assignee := "Cust", assigneeId := 5, createdBy := 2,
    dueDate := 500, tags := [], subtasks := [], timeSpent := 0, comments := [],
    isArchived := false, completedAt := none, createdAt := 10, updatedAt := 10 }

/-- A task vendorUser neither created nor is assigned. -/
def foreignTask : Task :=
  { tid := 12, title := "Foreign", description := "", priority := Priority.medium,
    status := Status.todo, assignee := "Cust", assigneeId := 5, createdBy := 8,
    dueDate := 500, tags := [], subtasks := [], timeSpent := 0, comments := [],
    isArchived := false, completedAt := none, createdAt := 10, updatedAt := 10 }

/-- A task assigned to uid 6, unrelated to customerUser and vendorUser. -/
def strangerTask : Task :=
  { tid := 13, title := "Elsewhere", description := "", priority := Priority.medium,
    status := Status.todo, assignee := "Someone", assigneeId := 6, createdBy := 8,
    dueDate := 500, tags := [], subtasks := [], timeSpent := 0, comments := [],
    isArchived := false, completedAt := none, createdAt := 10, updatedAt := 10 }

/-- Request body setting status to "done" and nothing else. -/
def patchStatusDone : TaskPatch := { emptyPatch with status := some Status.done }

/-- Request body a customer sends to change priority, dueDate and assigneeId. -/
def customerPatch : TaskPatch :=
  { emptyPatch with
    priority := some Priority.high,
    assigneeId := some 9,
    dueDate := some 999 }

/-- Bulk update body: raise priority to high. -/
def bulkPatch : TaskPatch := { emptyPatch with priority := some Priority.high }

/-- A token carrying both payload keys, resolving to uid 7 on either
interface. -/
def bothKeysTok : JwtPayload := { id := some 7, userId := some 7 }

/-- A connected admin, auto-enrolled in their user and role rooms. -/
def adminConn : Conn := { cid := 1, user := adminUser, rooms := ["user_1", "role_admin"] }

/-- A connected customer, in their user and role rooms only — not in any task
room. -/
def customerConn : Conn :=
  { cid := 2, user := customerUser, rooms := ["user_5", "role_customer"] }

/-! ## Theorems -/

-- helper lemmas

/-- The pre("save") middleware never changes the status field. -/
theorem taskPreSave_status (b : Bool) (n : Nat) (t : Task) :
    (taskPreSave b n t).status = t.status := by
  unfold taskPreSave
  split_ifs <;> rfl

/-- A save with the status path unmodified only refreshes updatedAt. -/
theorem taskPreSave_unmodified (n : Nat) (t : Task) :
    taskPreSave false n t = { t with updatedAt := n } := by
  unfold taskPreSave
  simp

/-- Saving a status equal to the stored one leaves completedAt alone. -/
theorem applyStatus_same_completedAt (u : Task) (s : Status) (n : Nat)
    (h : u.status = s) :
    (applyStatus u s n).completedAt = u.completedAt := by
  unfold applyStatus
  rw [h]
  simp [taskPreSave]

/-- Pointwise mapping produces a Forall₂ relation. -/
theorem forall2_of_map {a : Type} (R : a → a → Prop) (f : a → a) :
    ∀ l : List a, (∀ x, x ∈ l → R x (f x)) → List.Forall₂ R l (l.map f) := by
  intro l
  induction l with
  | nil => intro h; exact List.Forall₂.nil
  | cons x xs ih =>
    intro h
    exact List.Forall₂.cons (h x (by simp)) (ih (fun y hy => h y (by simp [hy])))

/-- Counting changed pairs of a list zipped with its conditional image equals
counting elements where the condition holds and the image differs. -/
theorem count_changed_zip_map {a : Type} [DecidableEq a] (q : a → Bool) (g : a → a) :
    ∀ l : List a,
      ((l.zip (l.map (fun t => if q t = true then g t else t))).filter
          (fun pr => decide (pr.2 ≠ pr.1))).length
        = (l.filter (fun t => q t && decide (g t ≠ t))).length := by
  intro l
  induction l with
  | nil => rfl
  | cons t ts ih =>
    by_cases hq : q t = true
    · by_cases hg : g t = t
      · simp [hq, hg]
        simpa using ih
      · simp [hq, hg]
        simpa using ih
    · simp [hq]
      simpa using ih

/-- checkTaskAccess for a customer reduces to the assignee test. -/
theorem checkTaskAccess_customer (u : UserDoc) (t : Task)
    (hrole : u.role = Role.customer) :
    checkTaskAccess u (some t) =
      (if t.assigneeId = u.uid then Except.ok () else Except.error ApiErr.forbidden) := by
  unfold checkTaskAccess
  rw [hrole]
  simp

-- C1

/-- C1: the claim fails on the code. At the failing input — an admin updating
an existing todo task with body status "done" — the update route applies the
body through Task.findByIdAndUpdate, which runs no pre("save") middleware: the
post-mutation task has status done but completedAt still none, while the task
state machine (applyStatus, the pre-save hook) at the same input sets
completedAt to the save time. -/
theorem update_done_bypasses_state_machine :
    putTaskRoute adminUser [] (some taskTodo) patchStatusDone 100 =
      Except.ok (findByIdAndUpdate taskTodo patchStatusDone 100) ∧
    (findByIdAndUpdate taskTodo patchStatusDone 100).status = Status.done ∧
    (findByIdAndUpdate taskTodo patchStatusDone 100).completedAt = none ∧
    (applyStatus taskTodo Status.done 100).completedAt = some 100 := by decide

-- C2

/-- C2 counterexample: a customer assigned to a task sends an update changing
priority, dueDate and assigneeId; the route answers 200 with all three fields
changed instead of the Forbidden the claim requires. -/
theorem customer_field_update_accepted :
    putTaskRoute customerUser [customerUser, otherUser] (some customerTask)
        customerPatch 200 =
      Except.ok { customerTask with
                  priority := Priority.high,
                  assigneeId := 9,
                  assignee := "Other",
                  dueDate := 999,
                  updatedAt := 200 } ∧
    putTaskRoute customerUser [customerUser, otherUser] (some customerTask)
        customerPatch 200 ≠
      Except.error ApiErr.forbidden := by decide

/-- C2 amended: a customer assigned to a task may update it — any body passing
assignee resolution is applied in full (assigneeId, priority and dueDate
included), not rejected with Forbidden; only a customer not assigned to the
task is rejected with Forbidden; and adding a comment to the assigned task
succeeds. -/
theorem customer_assigned_update_and_comment (u : UserDoc) (users : List UserDoc)
    (t t2 : Task) (p : TaskPatch) (text : String) (now : Nat)
    (hrole : u.role = Role.customer) (hassigned : t.assigneeId = u.uid)
    (hother : t2.assigneeId ≠ u.uid) (hp : p.assigneeId = none) :
    putTaskRoute u users (some t) p now = Except.ok (findByIdAndUpdate t p now) ∧
    putTaskRoute u users (some t2) p now = Except.error ApiErr.forbidden ∧
    exceptOk (postCommentRoute u (some t) text now) = true := by
  refine ⟨?_, ?_, ?_⟩
  · unfold putTaskRoute
    rw [checkTaskAccess_customer u t hrole, if_pos hassigned]
    unfold updateTask
    rw [hp]
  · unfold putTaskRoute
    rw [checkTaskAccess_customer u t2 hrole, if_neg hother]
  · unfold postCommentRoute
    rw [checkTaskAccess_customer u t hrole, if_pos hassigned]
    rfl

/-- Witness: the amended customer-update behaviour at concrete inputs. -/
theorem customer_assigned_update_and_comment_witness :
    customerUser.role = Role.customer ∧
    customerTask.assigneeId = customerUser.uid ∧
    strangerTask.assigneeId ≠ customerUser.uid ∧
    bulkPatch.assigneeId = none ∧
    (putTaskRoute customerUser [] (some customerTask) bulkPatch 200 =
        Except.ok (findByIdAndUpdate customerTask bulkPatch 200) ∧
      putTaskRoute customerUser [] (some strangerTask) bulkPatch 200 =
        Except.error ApiErr.forbidden ∧
      exceptOk (postCommentRoute customerUser (some customerTask) "hi" 200) = true) := by
  refine ⟨rfl, rfl, ?h1, rfl, ?h2⟩
  case h1 => decide
  case h2 =>
    exact customer_assigned_update_and_comment customerUser [] customerTask strangerTask
      bulkPatch "hi" 200 rfl rfl (by decide) rfl

-- C3

/-- C3 counterexample: for an admin and an archived task the list-scope
predicate rejects while the single-task endpoint grants read access — the two
visibility checks disagree. -/
theorem archived_task_scope_read_disagree :
    scopeFilter adminUser archivedTask = false ∧
    canReadTask adminUser archivedTask = true ∧
    getTask adminUser (some archivedTask) = Except.ok archivedTask := by decide

/-- C3 amended: the list-scope predicate and the single-task read check agree
for every actor on every non-archived task; they disagree exactly on archived
tasks, which the listing always excludes while the single-task endpoint still
serves them to any actor passing the role check. -/
theorem scope_filter_matches_read_unarchived (u : UserDoc) (t : Task)
    (h : t.isArchived = false) :
    scopeFilter u t = canReadTask u t := by
  simp [scopeFilter, canReadTask, h]

/-- Witness: scope/read agreement for a vendor on a live task. -/
theorem scope_filter_matches_read_unarchived_witness :
    customerTask.isArchived = false ∧
      scopeFilter vendorUser customerTask = canReadTask vendorUser customerTask :=
  ⟨rfl, scope_filter_matches_read_unarchived vendorUser customerTask rfl⟩

-- C4

/-- C4: a vendor bulk update touches exactly the submitted tasks the vendor
owns (assignee or creator); every other stored task — submitted or not — is
returned unchanged, and the reported modifiedCount equals the number of stored
tasks the operation actually changed, not the number of submitted ids. -/
theorem bulkUpdate_vendor_scope_and_count (actor : UserDoc) (users : List UserDoc)
    (store : List Task) (taskIds : List Nat) (p : TaskPatch) (now : Nat)
    (hrole : actor.role = Role.vendor) (hnone : p.assigneeId = none) :
    bulkUpdateTasks actor users store taskIds p now =
      Except.ok (updateMany (bulkQueryMatch actor taskIds) p now store) ∧
    List.Forall₂
      (fun told tnew =>
        (¬(told.tid ∈ taskIds ∧ (told.assigneeId = actor.uid ∨ told.createdBy = actor.uid)) →
          tnew = told) ∧
        ((told.tid ∈ taskIds ∧ (told.assigneeId = actor.uid ∨ told.createdBy = actor.uid)) →
          tnew = findByIdAndUpdate told p now))
      store (updateMany (bulkQueryMatch actor taskIds) p now store).1 ∧
    (updateMany (bulkQueryMatch actor taskIds) p now store).2 =
      ((store.zip (updateMany (bulkQueryMatch actor taskIds) p now store).1).filter
          (fun pr => decide (pr.2 ≠ pr.1))).length := by
  have hq : ∀ t : Task, bulkQueryMatch actor taskIds t = true ↔
      (t.tid ∈ taskIds ∧ (t.assigneeId = actor.uid ∨ t.createdBy = actor.uid)) := by
    intro t
    simp [bulkQueryMatch, hrole]
  refine ⟨?_, ?_, ?_⟩
  · unfold bulkUpdateTasks
    rw [hnone]
  · apply forall2_of_map
    intro x hx
    by_cases hc : bulkQueryMatch actor taskIds x = true
    · constructor
      · intro hnot
        exact absurd ((hq x).mp hc) hnot
      · intro _
        simp [hc]
    · constructor
      · intro _
        simp [hc]
      · intro hcond
        exact absurd ((hq x).mpr hcond) hc
  · show (updateMany (bulkQueryMatch actor taskIds) p now store).2 = _
    unfold updateMany
    exact (count_changed_zip_map (bulkQueryMatch actor taskIds)
      (fun t => findByIdAndUpdate t p now) store).symm

/-- Witness: the vendor bulk update at a store with one owned and one foreign
task, both ids submitted. -/
theorem bulkUpdate_vendor_scope_and_count_witness :
    vendorUser.role = Role.vendor ∧
    bulkPatch.assigneeId = none ∧
    (bulkUpdateTasks vendorUser [] [ownedTask, foreignTask] [11, 12] bulkPatch 300 =
        Except.ok (updateMany (bulkQueryMatch vendorUser [11, 12]) bulkPatch 300
          [ownedTask, foreignTask]) ∧
      List.Forall₂
        (fun told tnew =>
          (¬(told.tid ∈ [11, 12] ∧
              (told.assigneeId = vendorUser.uid ∨ told.createdBy = vendorUser.uid)) →
            tnew = told) ∧
          ((told.tid ∈ [11, 12] ∧
              (told.assigneeId = vendorUser.uid ∨ told.createdBy = vendorUser.uid)) →
            tnew = findByIdAndUpdate told bulkPatch 300))
        [ownedTask, foreignTask]
        (updateMany (bulkQueryMatch vendorUser [11, 12]) bulkPatch 300
          [ownedTask, foreignTask]).1 ∧
      (updateMany (bulkQueryMatch vendorUser [11, 12]) bulkPatch 300
          [ownedTask, foreignTask]).2 =
        (([ownedTask, foreignTask].zip
            (updateMany (bulkQueryMatch vendorUser [11, 12]) bulkPatch 300
              [ownedTask, foreignTask]).1).filter
            (fun pr => decide (pr.2 ≠ pr.1))).length) :=
  ⟨rfl, rfl,
    bulkUpdate_vendor_scope_and_count vendorUser [] [ownedTask, foreignTask]
      [11, 12] bulkPatch 300 rfl rfl⟩

-- C5

/-- C5: an actor with isActive false is denied on every interface: the REST
protect middleware answers 401 "User account is deactivated", socket
authentication rejects with its auth error, login answers 401 with the
deactivation message, and any protected route chain stops at protect without
running its handler. -/
theorem inactive_actor_denied_everywhere (users : List UserDoc) (tok : JwtPayload)
    (u : UserDoc) (email : String) (pwOk : UserDoc → Bool)
    (hinactive : u.isActive = false)
    (hrest : findUserByOptId users tok.userId = some u)
    (hsock : findUserByOptId users tok.id = some u)
    (hemail : findUserByEmail users email = some u) :
    protect users (some tok) =
      Except.error (ApiErr.unauthorized "User account is deactivated") ∧
    authenticateSocket users (some tok) =
      Except.error "Authentication error: Invalid user" ∧
    login users email pwOk =
      Except.error
        (ApiErr.unauthorized "Account is deactivated. Please contact administrator.") ∧
    (∀ (rest : List MwStep) (handler : Option UserDoc → Nat),
      runChain users (some tok) handler (MwStep.protectStep :: rest) none =
        RouteOutcome.unauthorized) := by
  have hprot : protect users (some tok) =
      Except.error (ApiErr.unauthorized "User account is deactivated") := by
    simp [protect, hrest, hinactive]
  refine ⟨hprot, ?_, ?_, ?_⟩
  · simp [authenticateSocket, hsock, hinactive]
  · simp [login, hemail, hinactive]
  · intro rest handler
    simp [runChain, hprot]

/-- Witness: every interface denies the deactivated fixture user. -/
theorem inactive_actor_denied_everywhere_witness :
    inactiveUser.isActive = false ∧
    findUserByOptId [inactiveUser] bothKeysTok.userId = some inactiveUser ∧
    findUserByOptId [inactiveUser] bothKeysTok.id = some inactiveUser ∧
    findUserByEmail [inactiveUser] "gone@example.com" = some inactiveUser ∧
    (protect [inactiveUser] (some bothKeysTok) =
        Except.error (ApiErr.unauthorized "User account is deactivated") ∧
      authenticateSocket [inactiveUser] (some bothKeysTok) =
        Except.error "Authentication error: Invalid user" ∧
      login [inactiveUser] "gone@example.com" (fun _ => true) =
        Except.error
          (ApiErr.unauthorized "Account is deactivated. Please contact administrator.") ∧
      (∀ (rest : List MwStep) (handler : Option UserDoc → Nat),
        runChain [inactiveUser] (some bothKeysTok) handler
            (MwStep.protectStep :: rest) none =
          RouteOutcome.unauthorized)) := by
  refine ⟨rfl, rfl, rfl, ?h1, ?h2⟩
  case h1 => decide
  case h2 =>
    exact inactive_actor_denied_everywhere [inactiveUser] bothKeysTok inactiveUser
      "gone@example.com" (fun _ => true) rfl rfl rfl (by decide)

-- C6

/-- C6 counterexample: the REST taskUpdated publication is a global io.emit —
a connected customer outside the task channel (and outside role:admin and
role:vendor) is among the recipients, which the claim forbids. -/
theorem rest_task_event_reaches_nonmember_customer :
    restTaskEventRecipients [adminConn, customerConn] = [adminConn, customerConn] ∧
    customerConn ∈ restTaskEventRecipients [adminConn, customerConn] ∧
    customerConn.user.role = Role.customer ∧
    ("task_" ++ toString 1) ∉ customerConn.rooms := by decide

/-- C6 amended: the REST task created/updated/deleted events are broadcast to
every connected client regardless of channel membership; only the
client-relayed socket taskUpdate event is delivered exactly to the members of
task:<id>, role:admin and role:vendor, excluding the sender. -/
theorem task_event_fanout_channels (conns : List Conn) (sender : Conn) (tid : Nat)
    (c : Conn) :
    restTaskEventRecipients conns = conns ∧
    (c ∈ taskUpdateRelayRecipients conns sender tid ↔
      c ∈ conns ∧ c ≠ sender ∧
        (("task_" ++ toString tid) ∈ c.rooms ∨ "role_admin" ∈ c.rooms ∨
          "role_vendor" ∈ c.rooms)) := by
  refine ⟨rfl, ?_⟩
  unfold taskUpdateRelayRecipients socketToRecipients
  simp only [List.mem_append, List.mem_filter, Bool.and_eq_true, decide_eq_true_eq]
  tauto

-- C7

/-- C7: the save-time status transition is idempotent on completedAt —
re-saving the same target status leaves completedAt exactly as the first save
set it — and touches no field besides completedAt and updatedAt: title,
priority, assigneeId, dueDate, tags, subtasks, comments and timeSpent pass
through untouched. -/
theorem applyStatus_idempotent_and_frame (t : Task) (s : Status) (n1 n2 : Nat) :
    (applyStatus (applyStatus t s n1) s n2).completedAt =
      (applyStatus t s n1).completedAt ∧
    (applyStatus t s n1).title = t.title ∧
    (applyStatus t s n1).priority = t.priority ∧
    (applyStatus t s n1).assigneeId = t.assigneeId ∧
    (applyStatus t s n1).dueDate = t.dueDate ∧
    (applyStatus t s n1).tags = t.tags ∧
    (applyStatus t s n1).subtasks = t.subtasks ∧
    (applyStatus t s n1).comments = t.comments ∧
    (applyStatus t s n1).timeSpent = t.timeSpent := by
  have hs : (applyStatus t s n1).status = s := by
    unfold applyStatus
    rw [taskPreSave_status]
  refine ⟨applyStatus_same_completedAt (applyStatus t s n1) s n2 hs, ?_, ?_, ?_, ?_, ?_, ?_, ?_, ?_⟩ <;>
    · unfold applyStatus taskPreSave
      split_ifs <;> rfl

-- C8

/-- C8: the subtaskProgress projection equals the derived formula — count of
completed subtasks, total count, and half-up rounding of completed/total*100 —
and is the zero record when the task has no subtasks; being a pure function of
the task, computing it mutates nothing. -/
theorem subtaskProgress_formula (t : Task) :
    subtaskProgress t =
      { completed := (t.subtasks.filter (fun s => s.completed)).length,
        total := t.subtasks.length,
        percentage := jsRound100 (t.subtasks.filter (fun s => s.completed)).length
          t.subtasks.length } ∧
    (t.subtasks = [] →
      subtaskProgress t = { completed := 0, total := 0, percentage := 0 }) := by
  constructor
  · unfold subtaskProgress
    split_ifs with h
    · rw [List.length_eq_zero.mp h]
      rfl
    · rfl
  · intro h
    simp [subtaskProgress, h]

-- C9

/-- C9: issuance and verification disagree on the payload key — a
generateToken credential (key "id", as register issues) is rejected by the
REST protect middleware (which reads "userId"), a login credential (key
"userId") is rejected by socket authentication (which reads "id"), and no
token the system issues authenticates on both interfaces. -/
theorem token_interface_key_mismatch (users : List UserDoc) (uid : Nat)
    (p : JwtPayload)
    (hp : p = generateToken uid ∨ p = loginTokenPayload uid) :
    protect users (some (generateToken uid)) =
      Except.error (ApiErr.unauthorized "No user found with this token") ∧
    authenticateSocket users (some (loginTokenPayload uid)) =
      Except.error "Authentication error: Invalid user" ∧
    ¬(exceptOk (protect users (some p)) = true ∧
        exceptOk (authenticateSocket users (some p)) = true) := by
  refine ⟨rfl, rfl, ?_⟩
  rcases hp with h | h <;> subst h
  · intro hcontra
    have hfalse : exceptOk (protect users (some (generateToken uid))) = false := rfl
    rw [hcontra.1] at hfalse
    exact Bool.noConfusion hfalse
  · intro hcontra
    have hfalse :
        exceptOk (authenticateSocket users (some (loginTokenPayload uid))) = false := rfl
    rw [hcontra.2] at hfalse
    exact Bool.noConfusion hfalse

/-- Witness: the key mismatch at a register-issued token for uid 7. -/
theorem token_interface_key_mismatch_witness :
    (generateToken 7 = generateToken 7 ∨ generateToken 7 = loginTokenPayload 7) ∧
    (protect [adminUser] (some (generateToken 7)) =
        Except.error (ApiErr.unauthorized "No user found with this token") ∧
      authenticateSocket [adminUser] (some (loginTokenPayload 7)) =
        Except.error "Authentication error: Invalid user" ∧
      ¬(exceptOk (protect [adminUser] (some (generateToken 7))) = true ∧
          exceptOk (authenticateSocket [adminUser] (some (generateToken 7))) = true)) :=
  ⟨Or.inl rfl, token_interface_key_mismatch [adminUser] 7 (generateToken 7) (Or.inl rfl)⟩

-- C10

/-- C10: the user router mounts no protect middleware (the router.use(protect)
line is commented out): the list and detail routes run their handlers and
serve user data even with no credential, never answering Unauthorized for any
token, and the admin-only update/delete chains reach authorize with no
resolved actor (crashing on req.user.role instead of returning 401/403). -/
theorem user_routes_lack_protect (users : List UserDoc) (tok : Option JwtPayload)
    (q : UsersQuery) (uid : Nat) :
    MwStep.protectStep ∉ userListChain ∧
    MwStep.protectStep ∉ userDetailChain ∧
    runChain users none (fun _ => getUsers users q) userListChain none =
      RouteOutcome.served (getUsers users q) ∧
    runChain users none (fun _ => getUserById users uid) userDetailChain none =
      RouteOutcome.served (getUserById users uid) ∧
    runChain users tok (fun _ => getUsers users q) userListChain none ≠
      RouteOutcome.unauthorized ∧
    runChain users tok (fun _ => getUserById users uid) userDetailChain none ≠
      RouteOutcome.unauthorized ∧
    runChain users tok (fun _ => (0 : Nat)) userUpdateChain none =
      RouteOutcome.authorizeCrash ∧
    runChain users tok (fun _ => (0 : Nat)) userDeleteChain none =
      RouteOutcome.authorizeCrash := by
  refine ⟨by decide, by decide, rfl, rfl, ?_, ?_, rfl, rfl⟩
  · simp [userListChain, runChain]
  · simp [userDetailChain, runChain]

end TrelloBackend
